import Mathlib

/-!
Verification of the Seer client navigation controller.

This file is a shallow embedding of the guidance controller implemented in
client/src/hooks/useNavigationLoop.ts (the React hook useNavigationLoop) and
of the JavaScript string primitives it relies on.

Modelling conventions:

* React component state (useState) is gathered into an explicit record
  NavState.  A handler invocation receives the render snapshot it closed
  over; every read of a useState variable inside the handler body uses that
  snapshot (a useState setter does not update the value a closure already
  holds), while the setter calls produce the committed state returned by the
  embedding.  Mutable refs (recentInstructions, historySnippets) are read and
  written through the threaded state, matching useRef semantics.
* External effects (Speech.speak, Haptics, postAudio, postPlan) are recorded
  in an event trace.  The transcription and planning services are opaque;
  their outcomes are passed in as an Except value (error means the awaited
  call threw, e.g. a timeout).
* JavaScript string operations (toLowerCase, includes, split, trim) are
  modelled over the character list of the string; toLowerCase is modelled on
  the basic-latin range, which is exactly the range Lean's Char.toLower
  handles.
-/

namespace Seer

/-- The NavigationState union type of useNavigationLoop.ts. -/
inductive NavigationState
  | SELECT_LANGUAGE
  | ASK_GOAL
  | NAVIGATING
  | REACHED
  | ASK_NEXT
  | END
  deriving DecidableEq

/-! ### JavaScript string primitives -/

/-- Scan for the first occurrence of the separator `sep` in a character
list: returns the characters before the first occurrence paired with the
characters after it (the JavaScript search used by includes / split / indexOf),
or none when `sep` does not occur. -/
def findOcc (sep : List Char) : List Char → Option (List Char × List Char)
  | [] => if sep.isPrefixOf ([] : List Char) then some ([], []) else none
  | c :: rest =>
    if sep.isPrefixOf (c :: rest) then some ([], (c :: rest).drop sep.length)
    else
      match findOcc sep rest with
      | none => none
      | some p => some (c :: p.1, p.2)

/-- JavaScript String.prototype.includes for a non-empty search string. -/
def jsIncludes (s sub : String) : Bool :=
  (findOcc sub.data s.data).isSome

/-- Element at index 1 of JavaScript s.split(sep): the text between the
first and the second occurrence of `sep` (up to the end of the string when
there is no second occurrence).  It is none exactly when `sep` does not
occur in `s`, i.e. when the split result has length 1. -/
def splitPart1 (s sep : String) : Option String :=
  match findOcc sep.data s.data with
  | none => none
  | some p =>
    match findOcc sep.data p.2 with
    | none => some (String.mk p.2)
    | some q => some (String.mk q.1)

/-- The whitespace characters trimmed by the model of String.prototype.trim. -/
def isJsSpace (c : Char) : Bool :=
  c = ' ' || c = '\t' || c = '\n' || c = '\r'

/-- Strip leading and trailing whitespace from a character list. -/
def trimChars (l : List Char) : List Char :=
  ((l.dropWhile isJsSpace).reverse.dropWhile isJsSpace).reverse

/-- JavaScript String.prototype.trim (on the modelled whitespace set). -/
def jsTrim (s : String) : String :=
  String.mk (trimChars s.data)

/-- JavaScript String.prototype.toLowerCase, modelled character-wise on the
basic-latin letters. -/
def jsToLower (s : String) : String :=
  String.mk (s.data.map Char.toLower)

/-- Rendering of a string-or-null value inside a JavaScript template
literal: null renders as the text "null". -/
def jsTemplate : Option String → String
  | none => "null"
  | some c => c

/-- JavaScript truthiness of a string-or-null value: null and the empty
string are falsy. -/
def checkpointTruthy : Option String → Bool
  | none => false
  | some c => c ≠ ""

/-! ### Data model of the controller -/

/-- The response shape of the planning service (PlanResponseSchema in
api.ts): urgency and danger_level are plain strings on the wire. -/
structure PlanResponse where
  instruction : String
  urgency : String
  reached : Bool
  danger_level : String
  deriving DecidableEq

/-- The component state of useNavigationLoop: the six useState cells and
the two useRef history buffers. -/
structure NavState where
  state : NavigationState
  status : String
  checkpoint : Option String
  lastInstruction : Option String
  lastUrgency : String
  isProcessing : Bool
  recentInstructions : List String
  historySnippets : List String
  deriving DecidableEq

/-- The initial component state (the useState initialisers). -/
def initialState : NavState :=
  { state := .SELECT_LANGUAGE
    status := "idle"
    checkpoint := none
    lastInstruction := none
    lastUrgency := "normal"
    isProcessing := false
    recentInstructions := []
    historySnippets := [] }

/-- Observable external effects of the controller. -/
inductive Event
  | speak (text urgency : String)
  | hapticNotification (kind : String)
  | hapticImpact (style : String)
  | planCall (checkpoint : String) (recent snippets : List String)
  | transcribeCall
  deriving DecidableEq

/-- The haptic fired by playTTS, keyed off the urgency argument. -/
def urgencyHaptic (urgency : String) : Event :=
  if urgency == "warning" then Event.hapticNotification "Warning"
  else Event.hapticImpact "Light"

/-! ### playTTS -/

/-- playTTS of useNavigationLoop.ts (the non-throwing path; a failure of the
speech capability is caught inside playTTS in the source and only skips the
haptic and history updates).  In source order: speak the text, record it as
the last instruction together with its urgency, fire the urgency haptic,
push the text onto recentInstructions evicting the head beyond five entries,
and append a seer-labelled snippet. -/
def playTTS (text urgency : String) (s : NavState) : NavState × List Event :=
  let pushed := s.recentInstructions ++ [text]
  let recent := if pushed.length > 5 then pushed.tail else pushed
  ({ s with
      lastInstruction := some text
      lastUrgency := urgency
      recentInstructions := recent
      historySnippets := s.historySnippets ++ ["seer: " ++ text] },
   [Event.speak text urgency, urgencyHaptic urgency])

/-! ### handleVoiceInput -/

/-- The body of the try block of handleVoiceInput, after the transcription
service returned `transcript`.  `s0` is the render snapshot the handler
closed over (reads of state, checkpoint, lastInstruction, lastUrgency use
it); `s` is the threaded committed state. -/
def voiceBody (transcript : String) (s0 s : NavState) : NavState × List Event :=
  let s := { s with historySnippets := s.historySnippets ++ ["user: " ++ transcript] }
  let lower := jsToLower transcript
  if s0.state = .ASK_GOAL ∨ s0.state = .ASK_NEXT then
    ({ s with checkpoint := some transcript, state := .NAVIGATING, status := "navigating" }, [])
  else if s0.state = .NAVIGATING then
    if jsIncludes lower "stop" || jsIncludes lower "cancel" then
      playTTS "Navigation stopped." "normal"
        { s with state := .ASK_GOAL, status := "idle", checkpoint := none }
    else if jsIncludes lower "repeat" then
      -- the source guard is JS truthiness of lastInstruction: both null and
      -- the empty string are falsy, so an empty recorded instruction is
      -- skipped exactly like an absent one
      match s0.lastInstruction with
      | some li => if li ≠ "" then playTTS li s0.lastUrgency s else (s, [])
      | none => (s, [])
    else if jsIncludes lower "new checkpoint" then
      match splitPart1 lower "new checkpoint" with
      | some part =>
        let newCheckpoint := jsTrim part
        playTTS ("Navigating to " ++ newCheckpoint ++ ".") "normal"
          { s with checkpoint := some newCheckpoint }
      | none => (s, [])
    else if jsIncludes lower "i\x27m here" || jsIncludes lower "im here" then
      let r := playTTS ("You\x27ve reached " ++ jsTemplate s0.checkpoint ++ ".") "normal"
        { s with state := .REACHED, status := "reached" }
      (r.1, Event.hapticNotification "Success" :: r.2)
    else (s, [])
  else if s0.state = .REACHED then
    playTTS ("Navigating to " ++ transcript ++ ".") "normal"
      { s with checkpoint := some transcript, state := .NAVIGATING, status := "navigating" }
  else (s, [])

/-- handleVoiceInput of useNavigationLoop.ts.  `tr` is the outcome of the
awaited transcription call (error means it threw).  The handler drops the
input when the snapshot it observes has isProcessing set; otherwise it sets
the flag, runs the try body or the catch branch, and in the finally block
clears the flag and restores the status from the snapshot state. -/
def handleVoiceInput (tr : Except Unit String) (s0 : NavState) : NavState × List Event :=
  if s0.isProcessing then (s0, [])
  else
    let s1 : NavState := { s0 with isProcessing := true, status := "listening" }
    let r :=
      match tr with
      | .ok transcript =>
        let b := voiceBody transcript s0 s1
        (b.1, Event.transcribeCall :: b.2)
      | .error _ =>
        let b := playTTS "Network error. Please try again." "warning" s1
        (b.1, Event.transcribeCall :: b.2)
    ({ r.1 with
        isProcessing := false
        status := if s0.state = .NAVIGATING then "navigating" else "idle" },
     r.2)

/-! ### handleFrameCapture -/

/-- The entry guard of handleFrameCapture: return immediately unless the
snapshot state is NAVIGATING, the checkpoint is truthy (non-null and
non-empty) and no cycle is marked in flight. -/
def frameGuard (s0 : NavState) : Bool :=
  decide (s0.state = .NAVIGATING) && checkpointTruthy s0.checkpoint && !s0.isProcessing

/-- The haptic events fired from planResult.danger_level, in source order. -/
def dangerHaptics (pr : PlanResponse) : List Event :=
  if pr.danger_level == "danger" then [Event.hapticNotification "Error"]
  else if pr.danger_level == "caution" then [Event.hapticNotification "Warning"]
  else if pr.danger_level == "safe" then [Event.hapticImpact "Light"]
  else []

/-- handleFrameCapture of useNavigationLoop.ts.  `res` is the outcome of the
awaited planning call.  On success: danger haptics, speak the instruction
through playTTS, and on reached transition to REACHED with a success haptic
and no further speech.  On failure the catch block only logs (the source
comment: do not spam errors on every frame); the finally block clears the
processing flag unconditionally. -/
def handleFrameCapture (res : Except Unit PlanResponse) (s0 : NavState) :
    NavState × List Event :=
  if !frameGuard s0 then (s0, [])
  else
    let s1 : NavState := { s0 with isProcessing := true }
    let ev0 := Event.planCall (jsTemplate s0.checkpoint) s1.recentInstructions s1.historySnippets
    match res with
    | .error _ => ({ s1 with isProcessing := false }, [ev0])
    | .ok pr =>
      let t := playTTS pr.instruction pr.urgency s1
      let s2 := if pr.reached then { t.1 with state := .REACHED, status := "reached" } else t.1
      let evR := if pr.reached then [Event.hapticNotification "Success"] else []
      ({ s2 with isProcessing := false }, ev0 :: (dangerHaptics pr ++ t.2 ++ evR))

/-! ### Trace observations -/

/-- Is the event a speech output? -/
def isSpeak : Event → Bool
  | .speak _ _ => true
  | _ => false

/-- The speech outputs of a trace, in order. -/
def speaks (tr : List Event) : List Event :=
  tr.filter isSpeak

/-- Is the event a call to the planning service? -/
def isPlanCall : Event → Bool
  | .planCall _ _ _ => true
  | _ => false

/-- The number of planning-service calls in a trace. -/
def planCalls (tr : List Event) : Nat :=
  (tr.filter isPlanCall).length

/-- A render snapshot in the middle of a navigation session, used for
concrete evaluations. -/
def navSnapshot : NavState :=
  { state := .NAVIGATING
    status := "navigating"
    checkpoint := some "elevator"
    lastInstruction := none
    lastUrgency := "normal"
    isProcessing := false
    recentInstructions := []
    historySnippets := [] }

/-! ### Lemmas about the lower-casing model -/

/-- Char.ofNat applied to a valid scalar value round-trips through toNat. -/
theorem toNat_ofNat_valid {n : Nat} (h : n.isValidChar) : (Char.ofNat n).toNat = n := by
  rw [Char.ofNat, dif_pos h]; rfl

/-- The numeric effect of Char.toLower. -/
theorem toNat_toLower (c : Char) :
    (Char.toLower c).toNat =
      if c.toNat ≥ 65 ∧ c.toNat ≤ 90 then c.toNat + 32 else c.toNat := by
  show (if c.toNat ≥ 65 ∧ c.toNat ≤ 90 then Char.ofNat (c.toNat + 32) else c).toNat = _
  split
  case isTrue h => exact toNat_ofNat_valid (Or.inl (by omega))
  case isFalse h => rfl

/-- Char.toLower is idempotent. -/
theorem toLower_toLower (c : Char) : (Char.toLower c).toLower = Char.toLower c := by
  have h1 := toNat_toLower c
  by_cases h : c.toNat ≥ 65 ∧ c.toNat ≤ 90
  · rw [if_pos h] at h1
    show (if (Char.toLower c).toNat ≥ 65 ∧ (Char.toLower c).toNat ≤ 90
          then Char.ofNat ((Char.toLower c).toNat + 32) else Char.toLower c) = Char.toLower c
    rw [h1, if_neg (by omega)]
  · have e : Char.toLower c = c := by
      show (if c.toNat ≥ 65 ∧ c.toNat ≤ 90 then Char.ofNat (c.toNat + 32) else c) = c
      rw [if_neg h]
    rw [e]
    exact e

/-- Every character of a lower-cased string is a fixed point of Char.toLower. -/
theorem toLower_fixed_of_mem_jsToLower {t : String} {a : Char}
    (h : a ∈ (jsToLower t).data) : Char.toLower a = a := by
  simp only [jsToLower, List.mem_map] at h
  obtain ⟨b, _, hb⟩ := h
  rw [← hb, toLower_toLower]

/-- A list whose characters are all fixed by Char.toLower maps to itself. -/
theorem map_toLower_fixed {l : List Char} (h : ∀ a ∈ l, Char.toLower a = a) :
    l.map Char.toLower = l := by
  rw [List.map_congr_left h]
  simp

/-! ### Membership lemmas for the split / trim model -/

/-- The two pieces returned by findOcc draw their characters from the
scanned list. -/
theorem findOcc_mem {sep : List Char} :
    ∀ {s p q : List Char}, findOcc sep s = some (p, q) →
      (∀ a ∈ p, a ∈ s) ∧ ∀ a ∈ q, a ∈ s := by
  intro s
  induction s with
  | nil =>
    intro p q h
    unfold findOcc at h
    split at h
    · cases h
      refine ⟨?_, ?_⟩ <;> · intro a ha; cases ha
    · cases h
  | cons c rest ih =>
    intro p q h
    unfold findOcc at h
    split at h
    · cases h
      refine ⟨?_, ?_⟩
      · intro a ha; cases ha
      · intro a ha
        exact (List.drop_sublist _ _).mem ha
    · cases e : findOcc sep rest with
      | none => rw [e] at h; cases h
      | some pq =>
        rw [e] at h
        simp only [Option.some.injEq, Prod.mk.injEq] at h
        obtain ⟨h1, h2⟩ := h
        subst h1
        subst h2
        have hm := ih (p := pq.1) (q := pq.2) (by rw [e])
        constructor
        · intro a ha
          cases ha with
          | head => exact List.mem_cons_self _ _
          | tail _ hb => exact List.mem_cons_of_mem _ (hm.1 _ hb)
        · intro a ha
          exact List.mem_cons_of_mem _ (hm.2 _ ha)

/-- The characters of splitPart1 come from the split string. -/
theorem splitPart1_mem {s sep part : String} (h : splitPart1 s sep = some part) :
    ∀ a ∈ part.data, a ∈ s.data := by
  cases e1 : findOcc sep.data s.data with
  | none => simp only [splitPart1, e1] at h; cases h
  | some p =>
    have hm1 := findOcc_mem (p := p.1) (q := p.2) (by rw [e1])
    cases e2 : findOcc sep.data p.2 with
    | none =>
      simp only [splitPart1, e1, e2, Option.some.injEq] at h
      subst h
      exact hm1.2
    | some q =>
      simp only [splitPart1, e1, e2, Option.some.injEq] at h
      subst h
      have hm2 := findOcc_mem (p := q.1) (q := q.2) (by rw [e2])
      intro a ha
      exact hm1.2 _ (hm2.1 _ ha)

/-- Trimming only removes characters. -/
theorem trimChars_mem {l : List Char} {a : Char} (h : a ∈ trimChars l) : a ∈ l := by
  unfold trimChars at h
  rw [List.mem_reverse] at h
  have h2 := (List.dropWhile_sublist _).mem h
  rw [List.mem_reverse] at h2
  exact (List.dropWhile_sublist _).mem h2

/-- A checkpoint extracted by the change-checkpoint command is a fixed point
of the lower-casing model: it is built from a piece of the lower-cased
transcript. -/
theorem jsToLower_fixed_splitPart1 {t part : String} {sep : String}
    (h : splitPart1 (jsToLower t) sep = some part) :
    jsToLower (jsTrim part) = jsTrim part := by
  have hmem : ∀ a ∈ (jsTrim part).data, Char.toLower a = a := by
    intro a ha
    exact toLower_fixed_of_mem_jsToLower (splitPart1_mem h _ (trimChars_mem ha))
  show String.mk ((jsTrim part).data.map Char.toLower) = jsTrim part
  rw [map_toLower_fixed hmem]

/-- splitPart1 succeeds exactly when the separator occurs. -/
theorem splitPart1_isSome {s sep : String} (h : jsIncludes s sep = true) :
    ∃ part, splitPart1 s sep = some part := by
  unfold jsIncludes at h
  cases e1 : findOcc sep.data s.data with
  | none => rw [e1] at h; cases h
  | some p =>
    cases e2 : findOcc sep.data p.2 with
    | none => exact ⟨String.mk p.2, by simp only [splitPart1, e1, e2]⟩
    | some q => exact ⟨String.mk q.1, by simp only [splitPart1, e1, e2]⟩

/-! ### Lemmas about playTTS and traces -/

/-- The urgency haptic is never a speech output. -/
theorem isSpeak_urgencyHaptic (u : String) : isSpeak (urgencyHaptic u) = false := by
  unfold urgencyHaptic
  split <;> rfl

/-- The urgency haptic is never a planning call. -/
theorem isPlanCall_urgencyHaptic (u : String) : isPlanCall (urgencyHaptic u) = false := by
  unfold urgencyHaptic
  split <;> rfl

/-- playTTS speaks its text exactly once. -/
theorem speaks_playTTS (text urgency : String) (s : NavState) :
    speaks (playTTS text urgency s).2 = [Event.speak text urgency] := by
  unfold playTTS urgencyHaptic
  split <;> rfl

/-- playTTS makes no planning call. -/
theorem planCalls_playTTS (text urgency : String) (s : NavState) :
    planCalls (playTTS text urgency s).2 = 0 := by
  unfold playTTS urgencyHaptic planCalls
  split <;> rfl

/-- playTTS keeps the spoken-instruction history within five entries. -/
theorem playTTS_recent_le (text urgency : String) (s : NavState)
    (h : s.recentInstructions.length ≤ 5) :
    (playTTS text urgency s).1.recentInstructions.length ≤ 5 := by
  simp only [playTTS]
  split
  case isTrue ht => simp_all [List.length_tail]
  case isFalse ht => simp_all

/-- The sixth push evicts the oldest entry and keeps insertion order. -/
theorem playTTS_recent_evict (text urgency : String) (s : NavState)
    (h : s.recentInstructions.length = 5) :
    (playTTS text urgency s).1.recentInstructions =
      s.recentInstructions.tail ++ [text] := by
  simp only [playTTS]
  cases e : s.recentInstructions with
  | nil => rw [e] at h; cases h
  | cons a l =>
    rw [e] at h
    simp only [List.length_cons] at h
    split
    case isTrue ht => simp
    case isFalse ht =>
      exfalso
      apply ht
      simp [List.length_append]
      omega

/-- playTTS leaves the navigation state and the checkpoint untouched. -/
theorem playTTS_state (text urgency : String) (s : NavState) :
    (playTTS text urgency s).1.state = s.state ∧
      (playTTS text urgency s).1.checkpoint = s.checkpoint := by
  constructor <;> rfl

/-! ### Branch shapes of the handlers -/

/-- An accepted voice input runs the try body on the flagged state, then the
finally block clears the flag and restores the status read from the
snapshot. -/
theorem hvi_ok (t : String) (s0 : NavState) (h : s0.isProcessing = false) :
    handleVoiceInput (.ok t) s0 =
      (let b := voiceBody t s0 { s0 with isProcessing := true, status := "listening" }
      ({ b.1 with
          isProcessing := false
          status := if s0.state = .NAVIGATING then "navigating" else "idle" },
       Event.transcribeCall :: b.2)) := by
  unfold handleVoiceInput
  rw [if_neg (by simp [h])]

/-- A failed transcription speaks the generic network-error warning. -/
theorem hvi_error (s0 : NavState) (h : s0.isProcessing = false) :
    handleVoiceInput (.error ()) s0 =
      (let b := playTTS "Network error. Please try again." "warning"
        { s0 with isProcessing := true, status := "listening" }
      ({ b.1 with
          isProcessing := false
          status := if s0.state = .NAVIGATING then "navigating" else "idle" },
       Event.transcribeCall :: b.2)) := by
  unfold handleVoiceInput
  rw [if_neg (by simp [h])]

/-- State ASK_GOAL or ASK_NEXT: the transcript becomes the checkpoint
verbatim and silently. -/
theorem vb_goal (t : String) (s0 s : NavState)
    (h1 : s0.state = .ASK_GOAL ∨ s0.state = .ASK_NEXT) :
    voiceBody t s0 s =
      ({ s with
          historySnippets := s.historySnippets ++ ["user: " ++ t]
          checkpoint := some t
          state := .NAVIGATING
          status := "navigating" }, []) := by
  unfold voiceBody
  rw [if_pos h1]

/-- State NAVIGATING, transcript matching stop or cancel. -/
theorem vb_nav_stop (t : String) (s0 s : NavState) (h1 : s0.state = .NAVIGATING)
    (hc : (jsIncludes (jsToLower t) "stop" || jsIncludes (jsToLower t) "cancel") = true) :
    voiceBody t s0 s =
      playTTS "Navigation stopped." "normal"
        { s with
            historySnippets := s.historySnippets ++ ["user: " ++ t]
            state := .ASK_GOAL
            status := "idle"
            checkpoint := none } := by
  unfold voiceBody
  rw [if_neg (by simp [h1]), if_pos h1, if_pos hc]

/-- State NAVIGATING, repeat with a truthy (non-empty) recorded last
instruction. -/
theorem vb_nav_repeat_some (t li : String) (s0 s : NavState) (h1 : s0.state = .NAVIGATING)
    (hc : (jsIncludes (jsToLower t) "stop" || jsIncludes (jsToLower t) "cancel") = false)
    (hr : jsIncludes (jsToLower t) "repeat" = true)
    (hli : s0.lastInstruction = some li) (hne : li ≠ "") :
    voiceBody t s0 s =
      playTTS li s0.lastUrgency
        { s with historySnippets := s.historySnippets ++ ["user: " ++ t] } := by
  unfold voiceBody
  rw [if_neg (by simp [h1]), if_pos h1, if_neg (by simp [hc]), if_pos hr, hli]
  exact if_pos hne

/-- State NAVIGATING, repeat with no recorded instruction: nothing happens. -/
theorem vb_nav_repeat_none (t : String) (s0 s : NavState) (h1 : s0.state = .NAVIGATING)
    (hc : (jsIncludes (jsToLower t) "stop" || jsIncludes (jsToLower t) "cancel") = false)
    (hr : jsIncludes (jsToLower t) "repeat" = true)
    (hli : s0.lastInstruction = none) :
    voiceBody t s0 s =
      ({ s with historySnippets := s.historySnippets ++ ["user: " ++ t] }, []) := by
  unfold voiceBody
  rw [if_neg (by simp [h1]), if_pos h1, if_neg (by simp [hc]), if_pos hr, hli]

/-- State NAVIGATING, repeat with an empty recorded instruction: the empty
string is falsy in JavaScript, so nothing happens either. -/
theorem vb_nav_repeat_empty (t : String) (s0 s : NavState) (h1 : s0.state = .NAVIGATING)
    (hc : (jsIncludes (jsToLower t) "stop" || jsIncludes (jsToLower t) "cancel") = false)
    (hr : jsIncludes (jsToLower t) "repeat" = true)
    (hli : s0.lastInstruction = some "") :
    voiceBody t s0 s =
      ({ s with historySnippets := s.historySnippets ++ ["user: " ++ t] }, []) := by
  unfold voiceBody
  rw [if_neg (by simp [h1]), if_pos h1, if_neg (by simp [hc]), if_pos hr, hli]
  exact if_neg (fun h => h rfl)

/-- State NAVIGATING, change-checkpoint: the new checkpoint is the trimmed
part of the lower-cased transcript between the first and second occurrence
of the phrase. -/
theorem vb_nav_newck (t part : String) (s0 s : NavState) (h1 : s0.state = .NAVIGATING)
    (hc : (jsIncludes (jsToLower t) "stop" || jsIncludes (jsToLower t) "cancel") = false)
    (hr : jsIncludes (jsToLower t) "repeat" = false)
    (hn : jsIncludes (jsToLower t) "new checkpoint" = true)
    (hp : splitPart1 (jsToLower t) "new checkpoint" = some part) :
    voiceBody t s0 s =
      playTTS ("Navigating to " ++ jsTrim part ++ ".") "normal"
        { s with
            historySnippets := s.historySnippets ++ ["user: " ++ t]
            checkpoint := some (jsTrim part) } := by
  unfold voiceBody
  rw [if_neg (by simp [h1]), if_pos h1, if_neg (by simp [hc]), if_neg (by simp [hr]),
    if_pos hn, hp]

/-- State NAVIGATING, mark-reached: success haptic, then the arrival
message rendered from the snapshot checkpoint. -/
theorem vb_nav_imhere (t : String) (s0 s : NavState) (h1 : s0.state = .NAVIGATING)
    (hc : (jsIncludes (jsToLower t) "stop" || jsIncludes (jsToLower t) "cancel") = false)
    (hr : jsIncludes (jsToLower t) "repeat" = false)
    (hn : jsIncludes (jsToLower t) "new checkpoint" = false)
    (hi : (jsIncludes (jsToLower t) "i\x27m here" || jsIncludes (jsToLower t) "im here") = true) :
    voiceBody t s0 s =
      (let r := playTTS ("You\x27ve reached " ++ jsTemplate s0.checkpoint ++ ".") "normal"
        { s with
            historySnippets := s.historySnippets ++ ["user: " ++ t]
            state := .REACHED
            status := "reached" }
      (r.1, Event.hapticNotification "Success" :: r.2)) := by
  unfold voiceBody
  rw [if_neg (by simp [h1]), if_pos h1, if_neg (by simp [hc]), if_neg (by simp [hr]),
    if_neg (by simp [hn]), if_pos hi]

/-- State NAVIGATING, no command keyword matches: only the user snippet is
recorded. -/
theorem vb_nav_none (t : String) (s0 s : NavState) (h1 : s0.state = .NAVIGATING)
    (hc : (jsIncludes (jsToLower t) "stop" || jsIncludes (jsToLower t) "cancel") = false)
    (hr : jsIncludes (jsToLower t) "repeat" = false)
    (hn : jsIncludes (jsToLower t) "new checkpoint" = false)
    (hi : (jsIncludes (jsToLower t) "i\x27m here" || jsIncludes (jsToLower t) "im here") = false) :
    voiceBody t s0 s =
      ({ s with historySnippets := s.historySnippets ++ ["user: " ++ t] }, []) := by
  unfold voiceBody
  rw [if_neg (by simp [h1]), if_pos h1, if_neg (by simp [hc]), if_neg (by simp [hr]),
    if_neg (by simp [hn]), if_neg (by simp [hi])]

/-- State REACHED: the transcript becomes the checkpoint verbatim and a
confirmation is spoken. -/
theorem vb_reached (t : String) (s0 s : NavState) (h1 : s0.state = .REACHED) :
    voiceBody t s0 s =
      playTTS ("Navigating to " ++ t ++ ".") "normal"
        { s with
            historySnippets := s.historySnippets ++ ["user: " ++ t]
            checkpoint := some t
            state := .NAVIGATING
            status := "navigating" } := by
  unfold voiceBody
  rw [if_neg (by simp [h1]), if_neg (by simp [h1]), if_pos h1]

/-- In the remaining states (SELECT_LANGUAGE, END) the command chain falls
through untouched. -/
theorem vb_other (t : String) (s0 s : NavState)
    (h1 : ¬(s0.state = .ASK_GOAL ∨ s0.state = .ASK_NEXT))
    (h2 : s0.state ≠ .NAVIGATING) (h3 : s0.state ≠ .REACHED) :
    voiceBody t s0 s =
      ({ s with historySnippets := s.historySnippets ++ ["user: " ++ t] }, []) := by
  unfold voiceBody
  rw [if_neg h1, if_neg h2, if_neg h3]

/-- A frame tick whose snapshot passes the entry guard, when the planning
call succeeds. -/
theorem hfc_ok (pr : PlanResponse) (s0 : NavState) (hg : frameGuard s0 = true) :
    handleFrameCapture (.ok pr) s0 =
      (let s1 : NavState := { s0 with isProcessing := true }
      let t := playTTS pr.instruction pr.urgency s1
      let s2 := if pr.reached then { t.1 with state := .REACHED, status := "reached" } else t.1
      let evR := if pr.reached then [Event.hapticNotification "Success"] else []
      ({ s2 with isProcessing := false },
       Event.planCall (jsTemplate s0.checkpoint) s1.recentInstructions s1.historySnippets ::
         (dangerHaptics pr ++ t.2 ++ evR))) := by
  unfold handleFrameCapture
  rw [if_neg (by simp [hg])]

/-- A frame tick whose snapshot passes the entry guard, when the planning
call throws: the planning call is the only recorded effect and the flag is
cleared. -/
theorem hfc_error (s0 : NavState) (hg : frameGuard s0 = true) :
    handleFrameCapture (.error ()) s0 =
      ({ s0 with isProcessing := false },
       [Event.planCall (jsTemplate s0.checkpoint) s0.recentInstructions s0.historySnippets]) := by
  unfold handleFrameCapture
  rw [if_neg (by simp [hg])]

/-- A frame tick whose snapshot fails the entry guard does nothing. -/
theorem hfc_skip (res : Except Unit PlanResponse) (s0 : NavState)
    (hg : frameGuard s0 = false) :
    handleFrameCapture res s0 = (s0, []) := by
  unfold handleFrameCapture
  rw [if_pos (by simp [hg])]

/-- The danger-level haptics contain no speech output. -/
theorem filter_speak_dangerHaptics (pr : PlanResponse) :
    (dangerHaptics pr).filter isSpeak = [] := by
  unfold dangerHaptics
  split
  · rfl
  · split
    · rfl
    · split <;> rfl

/-- The danger-level haptics contain no planning call. -/
theorem filter_plan_dangerHaptics (pr : PlanResponse) :
    (dangerHaptics pr).filter isPlanCall = [] := by
  unfold dangerHaptics
  split
  · rfl
  · split
    · rfl
    · split <;> rfl

/-- The trace of playTTS contains no planning call (filter form). -/
theorem filter_plan_playTTS (text urgency : String) (s : NavState) :
    ((playTTS text urgency s).2).filter isPlanCall = [] := by
  unfold playTTS urgencyHaptic
  split <;> rfl

/-- The trace of playTTS filtered to speech is the single spoken text. -/
theorem filter_speak_playTTS (text urgency : String) (s : NavState) :
    ((playTTS text urgency s).2).filter isSpeak = [Event.speak text urgency] := by
  unfold playTTS urgencyHaptic
  split <;> rfl

/-- The voice-command body never calls the planning service. -/
theorem vb_filter_plan (t : String) (s0 s : NavState) :
    ((voiceBody t s0 s).2).filter isPlanCall = [] := by
  by_cases hg : s0.state = .ASK_GOAL ∨ s0.state = .ASK_NEXT
  · rw [vb_goal t s0 s hg]
    rfl
  · by_cases hn : s0.state = .NAVIGATING
    · by_cases hc : (jsIncludes (jsToLower t) "stop" || jsIncludes (jsToLower t) "cancel") = true
      · rw [vb_nav_stop t s0 s hn hc]
        exact filter_plan_playTTS _ _ _
      · rw [Bool.not_eq_true] at hc
        by_cases hr : jsIncludes (jsToLower t) "repeat" = true
        · cases hli : s0.lastInstruction with
          | some li =>
            by_cases hne : li = ""
            · subst hne
              rw [vb_nav_repeat_empty t s0 s hn hc hr hli]
              rfl
            · rw [vb_nav_repeat_some t li s0 s hn hc hr hli hne]
              exact filter_plan_playTTS _ _ _
          | none =>
            rw [vb_nav_repeat_none t s0 s hn hc hr hli]
            rfl
        · rw [Bool.not_eq_true] at hr
          by_cases hnc : jsIncludes (jsToLower t) "new checkpoint" = true
          · obtain ⟨part, hp⟩ := splitPart1_isSome hnc
            rw [vb_nav_newck t part s0 s hn hc hr hnc hp]
            exact filter_plan_playTTS _ _ _
          · rw [Bool.not_eq_true] at hnc
            by_cases hi : (jsIncludes (jsToLower t) "i\x27m here" ||
                jsIncludes (jsToLower t) "im here") = true
            · rw [vb_nav_imhere t s0 s hn hc hr hnc hi]
              show (Event.hapticNotification "Success" ::
                  (playTTS _ _ _).2).filter isPlanCall = []
              rw [List.filter_cons_of_neg (by decide)]
              exact filter_plan_playTTS _ _ _
            · rw [Bool.not_eq_true] at hi
              rw [vb_nav_none t s0 s hn hc hr hnc hi]
              rfl
    · by_cases hrch : s0.state = .REACHED
      · rw [vb_reached t s0 s hrch]
        exact filter_plan_playTTS _ _ _
      · rw [vb_other t s0 s hg hn hrch]
        rfl

/-- handleVoiceInput never calls the planning service. -/
theorem hvi_filter_plan (tr : Except Unit String) (s0 : NavState) :
    ((handleVoiceInput tr s0).2).filter isPlanCall = [] := by
  unfold handleVoiceInput
  split
  · rfl
  · cases tr with
    | ok t =>
      show (Event.transcribeCall :: (voiceBody t s0 _).2).filter isPlanCall = []
      rw [List.filter_cons_of_neg (by decide)]
      exact vb_filter_plan _ _ _
    | error e =>
      show (Event.transcribeCall :: (playTTS _ _ _).2).filter isPlanCall = []
      rw [List.filter_cons_of_neg (by decide)]
      exact filter_plan_playTTS _ _ _

/-- A guidance cycle that passes the guard makes exactly one planning call,
and that call carries the recent-instruction history of the snapshot. -/
theorem hfc_filter_plan (res : Except Unit PlanResponse) (s0 : NavState)
    (hg : frameGuard s0 = true) :
    ((handleFrameCapture res s0).2).filter isPlanCall =
      [Event.planCall (jsTemplate s0.checkpoint) s0.recentInstructions
        s0.historySnippets] := by
  cases res with
  | error e =>
    cases e
    rw [hfc_error s0 hg]
    rfl
  | ok pr =>
    rw [hfc_ok pr s0 hg]
    show (Event.planCall _ _ _ ::
        ((dangerHaptics pr ++ (playTTS pr.instruction pr.urgency _).2) ++
          if pr.reached then [Event.hapticNotification "Success"] else [])).filter
          isPlanCall = _
    rw [List.filter_cons_of_pos (by rfl), List.filter_append, List.filter_append,
      filter_plan_dangerHaptics, filter_plan_playTTS]
    split <;> rfl

/-! ### The claims -/

/-- C1: an input whose handler observes ProcessingFlag true is dropped with
no service call and unchanged state; but the flag lives in React useState,
and a useState setter does not update the value already captured by the
closures of the current render, so two frame ticks fired within the same
synchronous turn both read the same snapshot (here navSnapshot), both pass
the guard, and each issues its own planning call: two calls, not the single
call the claim asserts. -/
theorem claimC1 :
    (handleVoiceInput (.ok "stop") { navSnapshot with isProcessing := true } =
        ({ navSnapshot with isProcessing := true }, []) ∧
      handleFrameCapture (.error ()) { navSnapshot with isProcessing := true } =
        ({ navSnapshot with isProcessing := true }, [])) ∧
    planCalls (handleFrameCapture (.error ()) navSnapshot).2 +
        planCalls (handleFrameCapture (.error ()) navSnapshot).2 = 2 := by
  refine ⟨⟨?_, ?_⟩, ?_⟩ <;> rfl

/-- C2 (counterexample): at the concrete NAVIGATING snapshot the planning
call throws; the cycle really ran (exactly one planning call is recorded),
yet the number of spoken messages is zero, not the single network-error
warning the claim asserts: the catch block of handleFrameCapture only
logs. -/
theorem claimC2_counterexample :
    planCalls (handleFrameCapture (.error ()) navSnapshot).2 = 1 ∧
      ¬ (speaks (handleFrameCapture (.error ()) navSnapshot).2).length = 1 := by
  exact ⟨rfl, by decide⟩

/-- C2 (amended): when the planning call of a guidance cycle fails, nothing
is spoken at all (the failure is only logged), the state remains
NAVIGATING, the checkpoint is unchanged, and ProcessingFlag returns to
false. -/
theorem claimC2 (s0 : NavState) (h1 : s0.state = .NAVIGATING)
    (h2 : checkpointTruthy s0.checkpoint = true) (h3 : s0.isProcessing = false) :
    speaks (handleFrameCapture (.error ()) s0).2 = [] ∧
      (handleFrameCapture (.error ()) s0).1.state = .NAVIGATING ∧
      (handleFrameCapture (.error ()) s0).1.checkpoint = s0.checkpoint ∧
      (handleFrameCapture (.error ()) s0).1.isProcessing = false := by
  have hg : frameGuard s0 = true := by simp [frameGuard, h1, h2, h3]
  rw [hfc_error s0 hg]
  exact ⟨rfl, h1, rfl, rfl⟩

/-- C2 (witness): the amended behaviour at the concrete snapshot. -/
theorem claimC2_witness :
    speaks (handleFrameCapture (.error ()) navSnapshot).2 = [] ∧
      (handleFrameCapture (.error ()) navSnapshot).1.state = .NAVIGATING ∧
      (handleFrameCapture (.error ()) navSnapshot).1.checkpoint = navSnapshot.checkpoint ∧
      (handleFrameCapture (.error ()) navSnapshot).1.isProcessing = false :=
  claimC2 navSnapshot rfl rfl rfl

/-- C3: in state NAVIGATING the transcript "new checkpoint" has an empty
remainder after the phrase, but the handler is not a no-op: the split of a
string that contains the separator always has at least two parts, so the
parts-length guard of the source never fails, the checkpoint is overwritten
with the empty string, and a confirmation is spoken. -/
theorem claimC3 :
    navSnapshot.checkpoint = some "elevator" ∧
      (handleVoiceInput (.ok "new checkpoint") navSnapshot).1.checkpoint = some "" ∧
      speaks (handleVoiceInput (.ok "new checkpoint") navSnapshot).2 =
        [Event.speak "Navigating to ." "normal"] := by
  refine ⟨rfl, ?_, ?_⟩ <;> rfl

/-- C4: along any sequence of speak operations the spoken-instruction
history keeps at most five entries; the sixth push evicts the oldest entry
in FIFO order; and every planning call a handler makes carries a
recent-instruction list of at most five entries. -/
theorem claimC4 (s0 : NavState) (h : s0.recentInstructions.length ≤ 5) :
    (∀ ps : List (String × String),
      ((ps.foldl (fun st p => (playTTS p.1 p.2 st).1) s0).recentInstructions).length ≤ 5) ∧
    (∀ text urgency, s0.recentInstructions.length = 5 →
      (playTTS text urgency s0).1.recentInstructions =
        s0.recentInstructions.tail ++ [text]) ∧
    (∀ res ck recent snippets,
      Event.planCall ck recent snippets ∈ (handleFrameCapture res s0).2 →
        recent.length ≤ 5) ∧
    (∀ tr ck recent snippets,
      Event.planCall ck recent snippets ∈ (handleVoiceInput tr s0).2 →
        recent.length ≤ 5) := by
  refine ⟨?_, ?_, ?_, ?_⟩
  · intro ps
    induction ps generalizing s0 with
    | nil => exact h
    | cons p ps ih =>
      exact ih _ (playTTS_recent_le p.1 p.2 s0 h)
  · intro text urgency h5
    exact playTTS_recent_evict text urgency s0 h5
  · intro res ck recent snippets hmem
    have hf : Event.planCall ck recent snippets ∈
        ((handleFrameCapture res s0).2).filter isPlanCall :=
      List.mem_filter.2 ⟨hmem, rfl⟩
    cases hg : frameGuard s0 with
    | false =>
      rw [hfc_skip res s0 hg] at hf
      cases hf
    | true =>
      rw [hfc_filter_plan res s0 hg] at hf
      cases hf with
      | head =>
        exact h
      | tail _ hb => cases hb
  · intro tr ck recent snippets hmem
    have hf : Event.planCall ck recent snippets ∈
        ((handleVoiceInput tr s0).2).filter isPlanCall :=
      List.mem_filter.2 ⟨hmem, rfl⟩
    rw [hvi_filter_plan tr s0] at hf
    cases hf

/-- C4 (witness): the bound, the FIFO eviction, and the capped planning
call at concrete inputs. -/
theorem claimC4_witness :
    ((([("a", "normal"), ("b", "normal"), ("c", "normal"), ("d", "normal"),
        ("e", "normal"), ("f", "normal")] :
          List (String × String)).foldl
        (fun st p => (playTTS p.1 p.2 st).1) navSnapshot).recentInstructions).length ≤ 5 :=
  (claimC4 navSnapshot (by decide)).1 _

/-- C5: a cycle that is accepted (its snapshot shows no cycle in flight)
always ends with ProcessingFlag false, whatever the service outcome: the
finally blocks reset the flag on success, thrown error, and the early
guard exits return an unchanged (false) flag. -/
theorem claimC5 (s0 : NavState) (h : s0.isProcessing = false) :
    (∀ tr, (handleVoiceInput tr s0).1.isProcessing = false) ∧
      ∀ res, (handleFrameCapture res s0).1.isProcessing = false := by
  constructor
  · intro tr
    cases tr with
    | ok t => rw [hvi_ok t s0 h]
    | error e => cases e; rw [hvi_error s0 h]
  · intro res
    cases hg : frameGuard s0 with
    | false => rw [hfc_skip res s0 hg]; exact h
    | true =>
      cases res with
      | error e => cases e; rw [hfc_error s0 hg]
      | ok pr => rw [hfc_ok pr s0 hg]

/-- C5 (witness): the flag is false after concrete voice and frame cycles. -/
theorem claimC5_witness :
    (handleVoiceInput (.ok "hello") navSnapshot).1.isProcessing = false ∧
      (handleFrameCapture (.error ()) navSnapshot).1.isProcessing = false :=
  ⟨(claimC5 navSnapshot rfl).1 (.ok "hello"), (claimC5 navSnapshot rfl).2 (.error ())⟩

/-- C6: a guidance cycle whose planning result carries reached = true
speaks the returned instruction exactly once, fires the success
notification haptic, and moves the state to REACHED with no further
arrival message. -/
theorem claimC6 (s0 : NavState) (pr : PlanResponse)
    (h1 : s0.state = .NAVIGATING) (h2 : checkpointTruthy s0.checkpoint = true)
    (h3 : s0.isProcessing = false) (h4 : pr.reached = true) :
    speaks (handleFrameCapture (.ok pr) s0).2 =
        [Event.speak pr.instruction pr.urgency] ∧
      Event.hapticNotification "Success" ∈ (handleFrameCapture (.ok pr) s0).2 ∧
      (handleFrameCapture (.ok pr) s0).1.state = .REACHED := by
  have hg : frameGuard s0 = true := by simp [frameGuard, h1, h2, h3]
  obtain ⟨i, u, r, d⟩ := pr
  replace h4 : r = true := h4
  subst h4
  rw [hfc_ok ⟨i, u, true, d⟩ s0 hg]
  refine ⟨?_, ?_, rfl⟩
  · show speaks (Event.planCall _ _ _ ::
        ((dangerHaptics ⟨i, u, true, d⟩ ++ (playTTS i u _).2) ++
          [Event.hapticNotification "Success"])) = _
    unfold speaks
    rw [List.filter_cons_of_neg (by simp [isSpeak]), List.filter_append,
      List.filter_append, filter_speak_dangerHaptics, filter_speak_playTTS]
    rfl
  · exact List.mem_cons_of_mem _
      (List.mem_append_right _ (List.mem_singleton_self _))

/-- C6 (witness): the specification scenario at a concrete snapshot. -/
theorem claimC6_witness :
    speaks (handleFrameCapture
        (.ok ⟨"Move forward two steps; door ahead.", "normal", true, "safe"⟩)
        navSnapshot).2 =
        [Event.speak "Move forward two steps; door ahead." "normal"] ∧
      Event.hapticNotification "Success" ∈ (handleFrameCapture
        (.ok ⟨"Move forward two steps; door ahead.", "normal", true, "safe"⟩)
        navSnapshot).2 ∧
      (handleFrameCapture
        (.ok ⟨"Move forward two steps; door ahead.", "normal", true, "safe"⟩)
        navSnapshot).1.state = .REACHED :=
  claimC6 navSnapshot ⟨"Move forward two steps; door ahead.", "normal", true, "safe"⟩
    rfl rfl rfl rfl

/-- C7: from REACHED, any non-empty utterance moves the state to NAVIGATING
with the checkpoint set to the transcript verbatim, and a confirmation is
spoken. -/
theorem claimC7 (s0 : NavState) (t : String) (h1 : s0.state = .REACHED)
    (h2 : s0.isProcessing = false) (h3 : t ≠ "") :
    (handleVoiceInput (.ok t) s0).1.state = .NAVIGATING ∧
      (handleVoiceInput (.ok t) s0).1.checkpoint = some t ∧
      speaks (handleVoiceInput (.ok t) s0).2 =
        [Event.speak ("Navigating to " ++ t ++ ".") "normal"] := by
  rw [hvi_ok t s0 h2,
    vb_reached t s0 { s0 with isProcessing := true, status := "listening" } h1]
  refine ⟨rfl, rfl, ?_⟩
  show speaks (Event.transcribeCall :: (playTTS _ _ _).2) = _
  unfold speaks
  rw [List.filter_cons_of_neg (by decide), filter_speak_playTTS]

/-- C7 (witness): a concrete utterance received in REACHED. -/
theorem claimC7_witness :
    (handleVoiceInput (.ok "elevator two") { navSnapshot with state := .REACHED }).1.state =
        .NAVIGATING ∧
      (handleVoiceInput (.ok "elevator two")
        { navSnapshot with state := .REACHED }).1.checkpoint = some "elevator two" ∧
      speaks (handleVoiceInput (.ok "elevator two")
        { navSnapshot with state := .REACHED }).2 =
        [Event.speak ("Navigating to " ++ "elevator two" ++ ".") "normal"] :=
  claimC7 { navSnapshot with state := .REACHED } "elevator two" rfl rfl (by decide)

/-- C8: in NAVIGATING, commands are classified by case-insensitive
substring matches checked in priority order stop/cancel, repeat,
new checkpoint, i-am-here; a transcript matching none of them is a no-op:
state and checkpoint are unchanged and nothing is spoken. -/
theorem claimC8 (s0 : NavState) (t : String) (h1 : s0.state = .NAVIGATING)
    (h2 : s0.isProcessing = false) :
    ((jsIncludes (jsToLower t) "stop" || jsIncludes (jsToLower t) "cancel") = true →
      (handleVoiceInput (.ok t) s0).1.state = .ASK_GOAL ∧
        (handleVoiceInput (.ok t) s0).1.checkpoint = none ∧
        speaks (handleVoiceInput (.ok t) s0).2 =
          [Event.speak "Navigation stopped." "normal"]) ∧
    ((jsIncludes (jsToLower t) "stop" || jsIncludes (jsToLower t) "cancel") = false →
      jsIncludes (jsToLower t) "repeat" = true →
      (handleVoiceInput (.ok t) s0).1.state = .NAVIGATING ∧
        (handleVoiceInput (.ok t) s0).1.checkpoint = s0.checkpoint) ∧
    ((jsIncludes (jsToLower t) "stop" || jsIncludes (jsToLower t) "cancel") = false →
      jsIncludes (jsToLower t) "repeat" = false →
      jsIncludes (jsToLower t) "new checkpoint" = true →
      ∀ part, splitPart1 (jsToLower t) "new checkpoint" = some part →
        (handleVoiceInput (.ok t) s0).1.state = .NAVIGATING ∧
          (handleVoiceInput (.ok t) s0).1.checkpoint = some (jsTrim part) ∧
          speaks (handleVoiceInput (.ok t) s0).2 =
            [Event.speak ("Navigating to " ++ jsTrim part ++ ".") "normal"]) ∧
    ((jsIncludes (jsToLower t) "stop" || jsIncludes (jsToLower t) "cancel") = false →
      jsIncludes (jsToLower t) "repeat" = false →
      jsIncludes (jsToLower t) "new checkpoint" = false →
      (jsIncludes (jsToLower t) "i\x27m here" || jsIncludes (jsToLower t) "im here") = true →
      (handleVoiceInput (.ok t) s0).1.state = .REACHED ∧
        Event.hapticNotification "Success" ∈ (handleVoiceInput (.ok t) s0).2 ∧
        speaks (handleVoiceInput (.ok t) s0).2 =
          [Event.speak ("You\x27ve reached " ++ jsTemplate s0.checkpoint ++ ".") "normal"]) ∧
    ((jsIncludes (jsToLower t) "stop" || jsIncludes (jsToLower t) "cancel") = false →
      jsIncludes (jsToLower t) "repeat" = false →
      jsIncludes (jsToLower t) "new checkpoint" = false →
      (jsIncludes (jsToLower t) "i\x27m here" || jsIncludes (jsToLower t) "im here") = false →
      (handleVoiceInput (.ok t) s0).1.state = .NAVIGATING ∧
        (handleVoiceInput (.ok t) s0).1.checkpoint = s0.checkpoint ∧
        speaks (handleVoiceInput (.ok t) s0).2 = []) := by
  refine ⟨?_, ?_, ?_, ?_, ?_⟩
  · intro hc
    rw [hvi_ok t s0 h2,
      vb_nav_stop t s0 { s0 with isProcessing := true, status := "listening" } h1 hc]
    refine ⟨rfl, rfl, ?_⟩
    show speaks (Event.transcribeCall :: (playTTS _ _ _).2) = _
    unfold speaks
    rw [List.filter_cons_of_neg (by decide), filter_speak_playTTS]
  · intro hc hr
    cases hli : s0.lastInstruction with
    | some li =>
      by_cases hne : li = ""
      · subst hne
        rw [hvi_ok t s0 h2, vb_nav_repeat_empty t s0
          { s0 with isProcessing := true, status := "listening" } h1 hc hr hli]
        exact ⟨h1, rfl⟩
      · rw [hvi_ok t s0 h2, vb_nav_repeat_some t li s0
          { s0 with isProcessing := true, status := "listening" } h1 hc hr hli hne]
        exact ⟨h1, rfl⟩
    | none =>
      rw [hvi_ok t s0 h2, vb_nav_repeat_none t s0
        { s0 with isProcessing := true, status := "listening" } h1 hc hr hli]
      exact ⟨h1, rfl⟩
  · intro hc hr hnc part hp
    rw [hvi_ok t s0 h2, vb_nav_newck t part s0
      { s0 with isProcessing := true, status := "listening" } h1 hc hr hnc hp]
    refine ⟨h1, rfl, ?_⟩
    show speaks (Event.transcribeCall :: (playTTS _ _ _).2) = _
    unfold speaks
    rw [List.filter_cons_of_neg (by decide), filter_speak_playTTS]
  · intro hc hr hnc hi
    rw [hvi_ok t s0 h2, vb_nav_imhere t s0
      { s0 with isProcessing := true, status := "listening" } h1 hc hr hnc hi]
    refine ⟨rfl, ?_, ?_⟩
    · exact List.mem_cons_of_mem _ (List.mem_cons_self _ _)
    · show speaks (Event.transcribeCall :: Event.hapticNotification "Success" ::
          (playTTS _ _ _).2) = _
      unfold speaks
      rw [List.filter_cons_of_neg (by decide), List.filter_cons_of_neg (by decide),
        filter_speak_playTTS]
  · intro hc hr hnc hi
    rw [hvi_ok t s0 h2, vb_nav_none t s0
      { s0 with isProcessing := true, status := "listening" } h1 hc hr hnc hi]
    exact ⟨h1, rfl, rfl⟩

/-- C8 (witness): one concrete transcript per classification case. -/
theorem claimC8_witness :
    ((handleVoiceInput (.ok "please stop") navSnapshot).1.state = .ASK_GOAL ∧
        (handleVoiceInput (.ok "please stop") navSnapshot).1.checkpoint = none ∧
        speaks (handleVoiceInput (.ok "please stop") navSnapshot).2 =
          [Event.speak "Navigation stopped." "normal"]) ∧
    ((handleVoiceInput (.ok "repeat") navSnapshot).1.state = .NAVIGATING ∧
        (handleVoiceInput (.ok "repeat") navSnapshot).1.checkpoint =
          navSnapshot.checkpoint) ∧
    ((handleVoiceInput (.ok "new checkpoint kitchen") navSnapshot).1.state =
          .NAVIGATING ∧
        (handleVoiceInput (.ok "new checkpoint kitchen") navSnapshot).1.checkpoint =
          some (jsTrim " kitchen") ∧
        speaks (handleVoiceInput (.ok "new checkpoint kitchen") navSnapshot).2 =
          [Event.speak ("Navigating to " ++ jsTrim " kitchen" ++ ".") "normal"]) ∧
    ((handleVoiceInput (.ok "im here") navSnapshot).1.state = .REACHED ∧
        Event.hapticNotification "Success" ∈
          (handleVoiceInput (.ok "im here") navSnapshot).2 ∧
        speaks (handleVoiceInput (.ok "im here") navSnapshot).2 =
          [Event.speak ("You\x27ve reached " ++ jsTemplate navSnapshot.checkpoint ++ ".")
            "normal"]) ∧
    ((handleVoiceInput (.ok "hello there") navSnapshot).1.state = .NAVIGATING ∧
        (handleVoiceInput (.ok "hello there") navSnapshot).1.checkpoint =
          navSnapshot.checkpoint ∧
        speaks (handleVoiceInput (.ok "hello there") navSnapshot).2 = []) :=
  ⟨(claimC8 navSnapshot "please stop" rfl rfl).1 (by decide),
   (claimC8 navSnapshot "repeat" rfl rfl).2.1 (by decide) (by decide),
   (claimC8 navSnapshot "new checkpoint kitchen" rfl rfl).2.2.1 (by decide) (by decide)
     (by decide) " kitchen" (by decide),
   (claimC8 navSnapshot "im here" rfl rfl).2.2.2.1 (by decide) (by decide) (by decide)
     (by decide),
   (claimC8 navSnapshot "hello there" rfl rfl).2.2.2.2 (by decide) (by decide)
     (by decide) (by decide)⟩

/-- C9 (counterexample): a last instruction exists (it is the recorded
empty string, reachable from an empty planning instruction), yet the repeat
command in NAVIGATING speaks nothing: the source guard is JS truthiness of
lastInstruction, and the empty string is falsy.  This falsifies the original
claim that an existing last instruction is always re-spoken with its
recorded text and urgency. -/
theorem claimC9_counterexample :
    ({ navSnapshot with lastInstruction := some "" } : NavState).lastInstruction =
        some "" ∧
      speaks (handleVoiceInput (.ok "repeat")
        { navSnapshot with lastInstruction := some "" }).2 = [] ∧
      ¬ speaks (handleVoiceInput (.ok "repeat")
          { navSnapshot with lastInstruction := some "" }).2 =
        [Event.speak ""
          ({ navSnapshot with lastInstruction := some "" } : NavState).lastUrgency] := by
  refine ⟨rfl, ?_, by decide⟩
  rfl

/-- C9 (amended): in NAVIGATING, a repeat command with no recorded last
instruction, or with a recorded instruction that is the empty string
(falsy in JavaScript), is a no-op: nothing spoken, no error, state and
checkpoint unchanged; with a non-empty recorded last instruction, that
instruction is re-spoken with its recorded text and urgency. -/
theorem claimC9 (s0 : NavState) (t : String) (h1 : s0.state = .NAVIGATING)
    (h2 : s0.isProcessing = false)
    (hc : (jsIncludes (jsToLower t) "stop" || jsIncludes (jsToLower t) "cancel") = false)
    (hr : jsIncludes (jsToLower t) "repeat" = true) :
    (s0.lastInstruction = none →
      speaks (handleVoiceInput (.ok t) s0).2 = [] ∧
        (handleVoiceInput (.ok t) s0).1.state = .NAVIGATING ∧
        (handleVoiceInput (.ok t) s0).1.checkpoint = s0.checkpoint) ∧
    (s0.lastInstruction = some "" →
      speaks (handleVoiceInput (.ok t) s0).2 = [] ∧
        (handleVoiceInput (.ok t) s0).1.state = .NAVIGATING ∧
        (handleVoiceInput (.ok t) s0).1.checkpoint = s0.checkpoint) ∧
    ∀ li, s0.lastInstruction = some li → li ≠ "" →
      speaks (handleVoiceInput (.ok t) s0).2 = [Event.speak li s0.lastUrgency] := by
  refine ⟨?_, ?_, ?_⟩
  · intro hli
    rw [hvi_ok t s0 h2, vb_nav_repeat_none t s0
      { s0 with isProcessing := true, status := "listening" } h1 hc hr hli]
    exact ⟨rfl, h1, rfl⟩
  · intro hli
    rw [hvi_ok t s0 h2, vb_nav_repeat_empty t s0
      { s0 with isProcessing := true, status := "listening" } h1 hc hr hli]
    exact ⟨rfl, h1, rfl⟩
  · intro li hli hne
    rw [hvi_ok t s0 h2, vb_nav_repeat_some t li s0
      { s0 with isProcessing := true, status := "listening" } h1 hc hr hli hne]
    show speaks (Event.transcribeCall :: (playTTS _ _ _).2) = _
    unfold speaks
    rw [List.filter_cons_of_neg (by decide), filter_speak_playTTS]

/-- C9 (witness): repeat with no recorded instruction, with an empty
recorded instruction, and with a non-empty recorded instruction. -/
theorem claimC9_witness :
    (speaks (handleVoiceInput (.ok "repeat") navSnapshot).2 = [] ∧
        (handleVoiceInput (.ok "repeat") navSnapshot).1.state = .NAVIGATING ∧
        (handleVoiceInput (.ok "repeat") navSnapshot).1.checkpoint =
          navSnapshot.checkpoint) ∧
      (speaks (handleVoiceInput (.ok "repeat")
          { navSnapshot with lastInstruction := some "" }).2 = [] ∧
        (handleVoiceInput (.ok "repeat")
          { navSnapshot with lastInstruction := some "" }).1.state = .NAVIGATING ∧
        (handleVoiceInput (.ok "repeat")
          { navSnapshot with lastInstruction := some "" }).1.checkpoint =
          ({ navSnapshot with lastInstruction := some "" } : NavState).checkpoint) ∧
      speaks (handleVoiceInput (.ok "repeat")
          { navSnapshot with
              lastInstruction := some "Go left."
              lastUrgency := "warning" }).2 =
        [Event.speak "Go left."
          ({ navSnapshot with
              lastInstruction := some "Go left."
              lastUrgency := "warning" } : NavState).lastUrgency] :=
  ⟨(claimC9 navSnapshot "repeat" rfl rfl (by decide) (by decide)).1 rfl,
   (claimC9 { navSnapshot with lastInstruction := some "" } "repeat" rfl rfl
      (by decide) (by decide)).2.1 rfl,
   (claimC9 { navSnapshot with
        lastInstruction := some "Go left."
        lastUrgency := "warning" } "repeat" rfl rfl (by decide) (by decide)).2.2
      "Go left." rfl (by decide)⟩

/-- C10: a checkpoint set through the change-checkpoint command is taken
from the lower-cased transcript and is itself a fixed point of lower-casing,
while a checkpoint set as a plain goal in ASK_GOAL, ASK_NEXT, or REACHED is
the transcript verbatim. -/
theorem claimC10 (s0 : NavState) (t : String) (h2 : s0.isProcessing = false) :
    (s0.state = .NAVIGATING →
      (jsIncludes (jsToLower t) "stop" || jsIncludes (jsToLower t) "cancel") = false →
      jsIncludes (jsToLower t) "repeat" = false →
      jsIncludes (jsToLower t) "new checkpoint" = true →
      ∃ c, (handleVoiceInput (.ok t) s0).1.checkpoint = some c ∧ jsToLower c = c) ∧
    ((s0.state = .ASK_GOAL ∨ s0.state = .ASK_NEXT) →
      (handleVoiceInput (.ok t) s0).1.checkpoint = some t) ∧
    (s0.state = .REACHED →
      (handleVoiceInput (.ok t) s0).1.checkpoint = some t) := by
  refine ⟨?_, ?_, ?_⟩
  · intro h1 hc hr hnc
    obtain ⟨part, hp⟩ := splitPart1_isSome hnc
    refine ⟨jsTrim part, ?_, jsToLower_fixed_splitPart1 hp⟩
    rw [hvi_ok t s0 h2, vb_nav_newck t part s0
      { s0 with isProcessing := true, status := "listening" } h1 hc hr hnc hp]
    rfl
  · intro h1
    rw [hvi_ok t s0 h2, vb_goal t s0
      { s0 with isProcessing := true, status := "listening" } h1]
  · intro h1
    rw [hvi_ok t s0 h2, vb_reached t s0
      { s0 with isProcessing := true, status := "listening" } h1]
    rfl

/-- C10 (witness): a mixed-case change-checkpoint command stores a
lower-cased checkpoint, while plain goals keep the transcript verbatim. -/
theorem claimC10_witness :
    (∃ c, (handleVoiceInput (.ok "New Checkpoint The DOOR") navSnapshot).1.checkpoint =
        some c ∧ jsToLower c = c) ∧
      (handleVoiceInput (.ok "Elevator Two")
          { navSnapshot with state := .ASK_GOAL }).1.checkpoint = some "Elevator Two" ∧
      (handleVoiceInput (.ok "Elevator Two")
          { navSnapshot with state := .REACHED }).1.checkpoint = some "Elevator Two" :=
  ⟨(claimC10 navSnapshot "New Checkpoint The DOOR" rfl).1 rfl (by decide) (by decide)
      (by decide),
   (claimC10 { navSnapshot with state := .ASK_GOAL } "Elevator Two" rfl).2.1 (.inl rfl),
   (claimC10 { navSnapshot with state := .REACHED } "Elevator Two" rfl).2.2 rfl⟩

end Seer
